import Mathlib

/-!
Verification of the CSS selector builder of `src/05-objects-tasks.js`
(`cssSelectorBuilder`).

The builder state is an object that may or may not carry a `res` field,
an array of fragments `{ type, value }`.  We embed it shallowly:

* `FragKind` — the seven `type` strings that occur in the program;
* `Fragment` — a `type`/`value` pair;
* `Selector` — the builder state; `res : Option (List Fragment)` mirrors
  that the bare facade has no `res` field (`undefined`) while every
  produced object carries an array;
* the methods `element`, `id`, `class`, `attr`, `pseudoClass`,
  `pseudoElement`, `combine`, `stringify`, `throwErrorIfNotSorted` become
  functions taking the receiver explicitly; the throwing methods return
  `Except String` carrying the thrown message.
-/

/-- The `type` strings of fragments produced by the program. -/
inductive FragKind where
  | element
  | id
  | «class»
  | attribute
  | pseudoClass
  | pseudoElement
  | combinator
deriving DecidableEq, Repr

/-- One entry of the `res` array: `{ type, value }`. -/
structure Fragment where
  type : FragKind
  value : String
deriving DecidableEq, Repr

/-- The builder state.  The facade itself has no `res` field (`none`);
objects returned by the operations carry one (`some list`). -/
structure Selector where
  res : Option (List Fragment)
deriving DecidableEq, Repr

namespace cssSelectorBuilder

/-- `const TWICE_ERROR = ...` (message thrown on a duplicated singleton kind). -/
def TWICE_ERROR : String :=
  "Element, id and pseudo-element should not occur more then one time inside the selector"

/-- `const NOT_SO_ERROR = ...` (message thrown by `throwErrorIfNotSorted`). -/
def NOT_SO_ERROR : String :=
  "Selector parts should be arranged in the following order: element, id, class, attribute, pseudo-class, pseudo-element"

/-- The `order` array of `throwErrorIfNotSorted`. -/
def order : List FragKind :=
  [.element, .id, .«class», .attribute, .pseudoClass, .pseudoElement]

/-- JavaScript `Array.prototype.indexOf`: the index of the first occurrence,
`-1` when absent (as for `combinator`, which is not in `order`). -/
def jsIndexOf (a : List FragKind) (k : FragKind) : Int :=
  match a.findIdx? (fun x => x == k) with
  | some i => (i : Int)
  | none => -1

/-- The `every((value, index, array) => !index || order.indexOf(array[index-1].type)
<= order.indexOf(value.type))` scan of `throwErrorIfNotSorted`: each adjacent
pair of the array is ordered by `jsIndexOf order`. -/
def isSortedB : List Fragment → Bool
  | [] => true
  | [_] => true
  | a :: b :: rest =>
      (jsIndexOf order a.type ≤ jsIndexOf order b.type) && isSortedB (b :: rest)

/-- `throwErrorIfNotSorted()`: throws `NOT_SO_ERROR` unless the receiver's
`res` array (defaulted to `[]`) is pairwise ordered. -/
def throwErrorIfNotSorted (s : Selector) : Except String Unit :=
  if isSortedB (s.res.getD []) then .ok () else .error NOT_SO_ERROR

/-- The duplicate test `this.res && this.res.filter((val) => val.type === k).length !== 0`
shared by `element`, `id` and `pseudoElement` (an absent `res` is falsy, an
array — even empty — is truthy, so the filter runs only under `some`). -/
def hasDup (s : Selector) (k : FragKind) : Bool :=
  match s.res with
  | none => false
  | some l => (l.filter (fun val => val.type == k)).length != 0

/-- The shared tail of every appending method: build
`{ ...this, res: [...this.res || [], { type, value }] }`, run
`throwErrorIfNotSorted` on it, and return it if no error was thrown. -/
def appendValidated (s : Selector) (t : FragKind) (value : String) :
    Except String Selector :=
  let res : Selector := ⟨some ((s.res.getD []) ++ [{ type := t, value := value }])⟩
  match throwErrorIfNotSorted res with
  | .error e => .error e
  | .ok _ => .ok res

/-- `element(value)`: duplicate check on kind `element`, then append and validate. -/
def element (s : Selector) (value : String) : Except String Selector :=
  if hasDup s .element then .error TWICE_ERROR
  else appendValidated s .element value

/-- `id(value)`: duplicate check on kind `id`, then append and validate. -/
def id (s : Selector) (value : String) : Except String Selector :=
  if hasDup s .id then .error TWICE_ERROR
  else appendValidated s .id value

/-- `class(value)`: append and validate, no duplicate check. -/
def «class» (s : Selector) (value : String) : Except String Selector :=
  appendValidated s .«class» value

/-- `attr(value)`: append and validate, no duplicate check. -/
def attr (s : Selector) (value : String) : Except String Selector :=
  appendValidated s .attribute value

/-- `pseudoClass(value)`: append and validate, no duplicate check. -/
def pseudoClass (s : Selector) (value : String) : Except String Selector :=
  appendValidated s .pseudoClass value

/-- `pseudoElement(value)`: duplicate check on kind `pseudo-element`,
then append and validate. -/
def pseudoElement (s : Selector) (value : String) : Except String Selector :=
  if hasDup s .pseudoElement then .error TWICE_ERROR
  else appendValidated s .pseudoElement value

/-- `combine(selector1, combinator, selector2)`: splice the two `res` arrays
(each defaulted to `[]`) around a `combinator` fragment; no validation. -/
def combine (selector1 : Selector) (combinator : String) (selector2 : Selector) :
    Selector :=
  ⟨some ((selector1.res.getD []) ++ [{ type := .combinator, value := combinator }]
      ++ (selector2.res.getD []))⟩

/-- The `formatSelector` lookup of `stringify`, including the
`|| formatSelector.default` fallback: `element` is not a key of the lookup
object, so it takes the `default` branch (the value verbatim); every mapped
rendering starts with a literal punctuation character, hence is never the
empty string, so the fallback never fires for a mapped kind. -/
def formatFragment (obj : Fragment) : String :=
  match obj.type with
  | .id => "#" ++ obj.value
  | .«class» => "." ++ obj.value
  | .attribute => "[" ++ obj.value ++ "]"
  | .pseudoClass => ":" ++ obj.value
  | .pseudoElement => "::" ++ obj.value
  | .combinator => " " ++ obj.value ++ " "
  | .element => obj.value

/-- `stringify()`: `(this.res || []).reduce((acc, obj) => acc + rendered, '')`. -/
def stringify (s : Selector) : String :=
  (s.res.getD []).foldl (fun accumutator obj => accumutator ++ formatFragment obj) ""

end cssSelectorBuilder

/-- The facade object `cssSelectorBuilder` itself: it carries no `res` field. -/
def cssSelectorBuilder : Selector := ⟨none⟩

/-- The fragment array of a builder state, as `stringify` and the appending
methods read it: `this.res || []`. -/
def frags (s : Selector) : List Fragment :=
  s.res.getD []

/-- The rank the order scan assigns to a kind: its index in `order`,
`-1` for `combinator` (absent from `order`). -/
def rankOf (k : FragKind) : Int :=
  cssSelectorBuilder.jsIndexOf cssSelectorBuilder.order k

/-- The six fragment-appending operations, indexed by the kind they append.
`combinator` has no appending operation in the program; its arm is a stub
that no theorem below ever reaches (they all require the kind to differ from
`combinator`). -/
def appendOp : FragKind → Selector → String → Except String Selector
  | .element => cssSelectorBuilder.element
  | .id => cssSelectorBuilder.id
  | .«class» => cssSelectorBuilder.«class»
  | .attribute => cssSelectorBuilder.attr
  | .pseudoClass => cssSelectorBuilder.pseudoClass
  | .pseudoElement => cssSelectorBuilder.pseudoElement
  | .combinator => fun s _ => .ok s

/-- The Selectors reachable from the empty Selector (the facade) via the six
fragment-appending operations alone. -/
inductive Reachable : Selector → Prop where
  | facade : Reachable cssSelectorBuilder
  | element {s s' : Selector} {v : String} :
      Reachable s → cssSelectorBuilder.element s v = .ok s' → Reachable s'
  | id {s s' : Selector} {v : String} :
      Reachable s → cssSelectorBuilder.id s v = .ok s' → Reachable s'
  | «class» {s s' : Selector} {v : String} :
      Reachable s → cssSelectorBuilder.«class» s v = .ok s' → Reachable s'
  | attr {s s' : Selector} {v : String} :
      Reachable s → cssSelectorBuilder.attr s v = .ok s' → Reachable s'
  | pseudoClass {s s' : Selector} {v : String} :
      Reachable s → cssSelectorBuilder.pseudoClass s v = .ok s' → Reachable s'
  | pseudoElement {s s' : Selector} {v : String} :
      Reachable s → cssSelectorBuilder.pseudoElement s v = .ok s' → Reachable s'

/-- The data-model invariant of the specification: at most one fragment each
of the kinds `element`, `id` and `pseudo-element`, and the non-combinator
fragments in non-decreasing rank order. -/
def Invariant (s : Selector) : Prop :=
  (frags s).countP (fun f => f.type == FragKind.element) ≤ 1 ∧
  (frags s).countP (fun f => f.type == FragKind.id) ≤ 1 ∧
  (frags s).countP (fun f => f.type == FragKind.pseudoElement) ≤ 1 ∧
  ((frags s).filter (fun f => f.type != FragKind.combinator)).Chain'
    (fun a b => rankOf a.type ≤ rankOf b.type)

/-- Strengthened invariant carried through the reachability induction:
append-built selectors in addition contain no combinator fragment at all and
pass the order scan as a whole. -/
def GoodState (s : Selector) : Prop :=
  (∀ f ∈ frags s, f.type ≠ FragKind.combinator) ∧
  cssSelectorBuilder.isSortedB (frags s) = true ∧
  (frags s).countP (fun f => f.type == FragKind.element) ≤ 1 ∧
  (frags s).countP (fun f => f.type == FragKind.id) ≤ 1 ∧
  (frags s).countP (fun f => f.type == FragKind.pseudoElement) ≤ 1

/-- Rendering of one fragment as the specification words it (§4.1 stringify):
element → text verbatim, id → `#`+text, class → `.`+text,
attribute → `[`+text+`]`, pseudo-class → `:`+text, pseudo-element → `::`+text,
combinator → one space, the token, one space. -/
def specRender (f : Fragment) : String :=
  match f.type with
  | .element => f.value
  | .id => "#" ++ f.value
  | .«class» => "." ++ f.value
  | .attribute => "[" ++ f.value ++ "]"
  | .pseudoClass => ":" ++ f.value
  | .pseudoElement => "::" ++ f.value
  | .combinator => " " ++ f.value ++ " "

@[simp] theorem rankOf_element : rankOf FragKind.element = 0 := rfl

@[simp] theorem rankOf_id : rankOf FragKind.id = 1 := rfl

@[simp] theorem rankOf_class : rankOf FragKind.«class» = 2 := rfl

@[simp] theorem rankOf_attribute : rankOf FragKind.attribute = 3 := rfl

@[simp] theorem rankOf_pseudoClass : rankOf FragKind.pseudoClass = 4 := rfl

@[simp] theorem rankOf_pseudoElement : rankOf FragKind.pseudoElement = 5 := rfl

@[simp] theorem rankOf_combinator : rankOf FragKind.combinator = -1 := rfl

/-- The pairwise scan succeeds exactly when adjacent ranks are non-decreasing. -/
theorem isSortedB_eq_true_iff :
    ∀ l : List Fragment, cssSelectorBuilder.isSortedB l = true ↔
      l.Chain' (fun a b => rankOf a.type ≤ rankOf b.type)
  | [] => by simp [cssSelectorBuilder.isSortedB]
  | [a] => by simp [cssSelectorBuilder.isSortedB]
  | a :: b :: rest => by
      rw [cssSelectorBuilder.isSortedB, Bool.and_eq_true, decide_eq_true_iff,
        List.chain'_cons, isSortedB_eq_true_iff (b :: rest)]
      exact Iff.rfl

/-- Appending one fragment to a scanned array: the scan succeeds iff the old
array scanned and the last old fragment (if any) does not outrank the new one. -/
theorem isSortedB_append_last (l : List Fragment) (x : Fragment) :
    cssSelectorBuilder.isSortedB (l ++ [x]) = true ↔
      cssSelectorBuilder.isSortedB l = true ∧
      ∀ a ∈ l.getLast?, rankOf a.type ≤ rankOf x.type := by
  rw [isSortedB_eq_true_iff, isSortedB_eq_true_iff, List.chain'_append]
  simp

theorem appendValidated_ok_iff (s : Selector) (t : FragKind) (v : String) (s' : Selector) :
    cssSelectorBuilder.appendValidated s t v = .ok s' ↔
      cssSelectorBuilder.isSortedB (frags s ++ [{ type := t, value := v }]) = true ∧
      s' = ⟨some (frags s ++ [{ type := t, value := v }])⟩ := by
  unfold cssSelectorBuilder.appendValidated cssSelectorBuilder.throwErrorIfNotSorted
  simp only [frags]
  by_cases h : cssSelectorBuilder.isSortedB (s.res.getD [] ++ [{ type := t, value := v }]) = true
  · simp only [h, if_true]
    rw [eq_comm]
    simp [h]
  · rw [Bool.not_eq_true] at h
    simp [h]

theorem appendValidated_error_name (s : Selector) (t : FragKind) (v : String) (e : String) :
    cssSelectorBuilder.appendValidated s t v = .error e → e = cssSelectorBuilder.NOT_SO_ERROR := by
  unfold cssSelectorBuilder.appendValidated cssSelectorBuilder.throwErrorIfNotSorted
  by_cases h : cssSelectorBuilder.isSortedB (s.res.getD [] ++ [{ type := t, value := v }]) = true
  · simp [h]
  · rw [Bool.not_eq_true] at h
    simp [h, eq_comm]

theorem appendValidated_error_iff (s : Selector) (t : FragKind) (v : String) :
    cssSelectorBuilder.appendValidated s t v = .error cssSelectorBuilder.NOT_SO_ERROR ↔
      cssSelectorBuilder.isSortedB (frags s ++ [{ type := t, value := v }]) = false := by
  unfold cssSelectorBuilder.appendValidated cssSelectorBuilder.throwErrorIfNotSorted
  simp only [frags]
  by_cases h : cssSelectorBuilder.isSortedB (s.res.getD [] ++ [{ type := t, value := v }]) = true
  · simp [h]
  · rw [Bool.not_eq_true] at h
    simp [h]

theorem hasDup_eq_false_iff (s : Selector) (k : FragKind) :
    cssSelectorBuilder.hasDup s k = false ↔
      (frags s).countP (fun f => f.type == k) = 0 := by
  cases hr : s.res with
  | none => simp [cssSelectorBuilder.hasDup, frags, hr]
  | some l => simp [cssSelectorBuilder.hasDup, frags, hr, List.countP_eq_length_filter]

theorem stringify_frags (s : Selector) :
    cssSelectorBuilder.stringify s
      = String.join ((frags s).map cssSelectorBuilder.formatFragment) := by
  simp [cssSelectorBuilder.stringify, String.join, List.foldl_map, frags]

theorem join_append (l1 l2 : List String) :
    String.join (l1 ++ l2) = String.join l1 ++ String.join l2 := by
  apply String.ext
  simp

@[simp] theorem join_singleton (a : String) : String.join [a] = a := by
  simp [String.join, String.empty_append]

theorem goodState_facade : GoodState cssSelectorBuilder := by
  refine ⟨?_, rfl, ?_, ?_, ?_⟩ <;> simp [frags, cssSelectorBuilder]

theorem countP_append_singleton (l : List Fragment) (x : Fragment) (p : Fragment → Bool) :
    (l ++ [x]).countP p = l.countP p + if p x then 1 else 0 := by
  simp [List.countP_append, List.countP_cons]

theorem goodState_append {s s' : Selector} {t : FragKind} {v : String}
    (hg : GoodState s) (ht : t ≠ FragKind.combinator)
    (hte : t = FragKind.element → cssSelectorBuilder.hasDup s FragKind.element = false)
    (hti : t = FragKind.id → cssSelectorBuilder.hasDup s FragKind.id = false)
    (htp : t = FragKind.pseudoElement →
      cssSelectorBuilder.hasDup s FragKind.pseudoElement = false)
    (hok : cssSelectorBuilder.appendValidated s t v = .ok s') : GoodState s' :=
  by
  obtain ⟨hsort, hs'⟩ := (appendValidated_ok_iff s t v s').1 hok
  have hfr : frags s' = frags s ++ [{ type := t, value := v }] := by
    rw [hs']
    rfl
  obtain ⟨hnc, _, hce, hci, hcp⟩ := hg
  refine ⟨?_, ?_, ?_, ?_, ?_⟩
  · intro f hf
    rw [hfr] at hf
    rcases List.mem_append.1 hf with hf | hf
    · exact hnc f hf
    · simp only [List.mem_singleton] at hf
      rw [hf]
      exact ht
  · rw [hfr]
    exact hsort
  · rw [hfr, countP_append_singleton]
    by_cases hk : t = FragKind.element
    · have h0 : (frags s).countP (fun f => f.type == FragKind.element) = 0 :=
        (hasDup_eq_false_iff s FragKind.element).1 (hte hk)
      simp [h0, hk]
    · have hne : (({ type := t, value := v } : Fragment).type == FragKind.element) = false := by
        simp [hk]
      simp [hne]
      exact hce
  · rw [hfr, countP_append_singleton]
    by_cases hk : t = FragKind.id
    · have h0 : (frags s).countP (fun f => f.type == FragKind.id) = 0 :=
        (hasDup_eq_false_iff s FragKind.id).1 (hti hk)
      simp [h0, hk]
    · have hne : (({ type := t, value := v } : Fragment).type == FragKind.id) = false := by
        simp [hk]
      simp [hne]
      exact hci
  · rw [hfr, countP_append_singleton]
    by_cases hk : t = FragKind.pseudoElement
    · have h0 : (frags s).countP (fun f => f.type == FragKind.pseudoElement) = 0 :=
        (hasDup_eq_false_iff s FragKind.pseudoElement).1 (htp hk)
      simp [h0, hk]
    · have hne : (({ type := t, value := v } : Fragment).type == FragKind.pseudoElement) = false := by
        simp [hk]
      simp [hne]
      exact hcp

theorem dupGuard_ok {s s' : Selector} {t : FragKind} {v : String}
    (h : (if cssSelectorBuilder.hasDup s t then Except.error cssSelectorBuilder.TWICE_ERROR
        else cssSelectorBuilder.appendValidated s t v) = .ok s') :
    cssSelectorBuilder.hasDup s t = false ∧
      cssSelectorBuilder.appendValidated s t v = .ok s' := by
  by_cases hd : cssSelectorBuilder.hasDup s t
  · rw [if_pos hd] at h
    exact absurd h (by simp)
  · rw [if_neg hd] at h
    exact ⟨by simpa using hd, h⟩

theorem reachable_goodState {s : Selector} (h : Reachable s) : GoodState s := by
  induction h with
  | facade => exact goodState_facade
  | element _ hok ih =>
      obtain ⟨hd, hap⟩ := dupGuard_ok hok
      exact goodState_append ih (by simp) (fun _ => hd) (by simp) (by simp) hap
  | id _ hok ih =>
      obtain ⟨hd, hap⟩ := dupGuard_ok hok
      exact goodState_append ih (by simp) (by simp) (fun _ => hd) (by simp) hap
  | «class» _ hok ih =>
      exact goodState_append ih (by simp) (by simp) (by simp) (by simp) hok
  | attr _ hok ih =>
      exact goodState_append ih (by simp) (by simp) (by simp) (by simp) hok
  | pseudoClass _ hok ih =>
      exact goodState_append ih (by simp) (by simp) (by simp) (by simp) hok
  | pseudoElement _ hok ih =>
      obtain ⟨hd, hap⟩ := dupGuard_ok hok
      exact goodState_append ih (by simp) (by simp) (by simp) (fun _ => hd) hap

theorem goodState_invariant {s : Selector} (h : GoodState s) : Invariant s := by
  obtain ⟨hnc, hsort, hce, hci, hcp⟩ := h
  refine ⟨hce, hci, hcp, ?_⟩
  have hfilter : (frags s).filter (fun f => f.type != FragKind.combinator) = frags s :=
    List.filter_eq_self.2 (fun f hf => by simpa using hnc f hf)
  rw [hfilter]
  exact (isSortedB_eq_true_iff (frags s)).1 hsort

theorem specRender_eq_formatFragment :
    specRender = cssSelectorBuilder.formatFragment := by
  funext f
  obtain ⟨t, v⟩ := f
  cases t <;> rfl

/-- C1: `stringify` renders the fragments left-to-right and returns the
concatenation of the per-kind renderings (element verbatim, id `#`+text,
class `.`+text, attribute `[`+text+`]`, pseudo-class `:`+text, pseudo-element
`::`+text, combinator space+text+space, so the space combinator renders as
three spaces); a Selector with no fragments — an empty array or the bare
facade — stringifies to the empty string. -/
theorem stringify_renders_fragments (s : Selector) :
    cssSelectorBuilder.stringify s = String.join ((frags s).map specRender) ∧
    specRender { type := FragKind.combinator, value := " " } = "   " ∧
    cssSelectorBuilder.stringify ⟨some []⟩ = "" ∧
    cssSelectorBuilder.stringify cssSelectorBuilder = "" := by
  refine ⟨?_, rfl, rfl, rfl⟩
  rw [specRender_eq_formatFragment, stringify_frags]

/-- C5: `combine a c b` always returns the Selector whose fragment array is
`a`'s fragments, one combinator fragment carrying `c` verbatim, then `b`'s
fragments — it never fails and re-runs no validation — and the combinator
slot stringifies as a space, `c` itself, and a space, for any string `c`. -/
theorem combine_splices_verbatim (a b : Selector) (c : String) :
    cssSelectorBuilder.combine a c b
        = ⟨some (frags a ++ [{ type := FragKind.combinator, value := c }] ++ frags b)⟩ ∧
    cssSelectorBuilder.stringify (cssSelectorBuilder.combine a c b)
        = cssSelectorBuilder.stringify a ++ (" " ++ c ++ " ")
            ++ cssSelectorBuilder.stringify b := by
  constructor
  · rfl
  · rw [stringify_frags, stringify_frags, stringify_frags]
    have hfr : frags (cssSelectorBuilder.combine a c b)
        = frags a ++ [{ type := FragKind.combinator, value := c }] ++ frags b := rfl
    rw [hfr, List.map_append, List.map_append, join_append, join_append]
    rfl

/-- C10: `combine` accepts the bare facade (which carries no fragment array
at all) as either operand and treats it as the empty Selector: for every
string `c`, combining the facade with itself yields the Selector whose sole
fragment is the combinator, and its `stringify` is space, `c`, space. -/
theorem combine_facade_operands (c : String) :
    cssSelectorBuilder.res = none ∧
    cssSelectorBuilder.combine cssSelectorBuilder c cssSelectorBuilder
        = ⟨some [{ type := FragKind.combinator, value := c }]⟩ ∧
    cssSelectorBuilder.stringify
        (cssSelectorBuilder.combine cssSelectorBuilder c cssSelectorBuilder)
        = " " ++ c ++ " " := by
  refine ⟨rfl, by simp [cssSelectorBuilder.combine, cssSelectorBuilder], ?_⟩
  rw [stringify_frags]
  show String.join (([{ type := FragKind.combinator, value := c }] : List Fragment).map
    cssSelectorBuilder.formatFragment) = " " ++ c ++ " "
  rw [List.map_cons, List.map_nil, join_singleton]
  rfl

/-- C6: operations never mutate their input — in this embedding every
operation is a pure function of the old Selector — so divergent chains can
share a prefix: with `s` the Selector produced by `class('a')`, both
`s.class('b')` and `s.attr('c')` succeed, each extending `s`'s fragment
array without replacing it, and `stringify s` is still `".a"`. -/
theorem structural_sharing_example :
    cssSelectorBuilder.«class» cssSelectorBuilder "a"
        = .ok ⟨some [{ type := FragKind.«class», value := "a" }]⟩ ∧
    cssSelectorBuilder.«class» ⟨some [{ type := FragKind.«class», value := "a" }]⟩ "b"
        = .ok ⟨some [{ type := FragKind.«class», value := "a" },
                     { type := FragKind.«class», value := "b" }]⟩ ∧
    cssSelectorBuilder.attr ⟨some [{ type := FragKind.«class», value := "a" }]⟩ "c"
        = .ok ⟨some [{ type := FragKind.«class», value := "a" },
                     { type := FragKind.attribute, value := "c" }]⟩ ∧
    cssSelectorBuilder.stringify ⟨some [{ type := FragKind.«class», value := "a" }]⟩
        = ".a" := ⟨rfl, rfl, rfl, rfl⟩

/-- C8: the spec's worked examples: combining `element('div').id('main')` and
`element('table').id('data')` with `'+'` stringifies to
`"div#main + table#data"`, and `id('main').class('container').class('editable')`
stringifies to `"#main.container.editable"`. -/
theorem worked_examples :
    ((cssSelectorBuilder.element cssSelectorBuilder "div").bind (fun a =>
      (cssSelectorBuilder.id a "main").bind (fun a2 =>
      (cssSelectorBuilder.element cssSelectorBuilder "table").bind (fun b =>
      (cssSelectorBuilder.id b "data").map (fun b2 =>
        cssSelectorBuilder.stringify (cssSelectorBuilder.combine a2 "+" b2))))))
      = .ok "div#main + table#data" ∧
    (((cssSelectorBuilder.id cssSelectorBuilder "main").bind (fun s =>
        cssSelectorBuilder.«class» s "container")).bind (fun s =>
        cssSelectorBuilder.«class» s "editable")).map cssSelectorBuilder.stringify
      = .ok "#main.container.editable" := ⟨rfl, rfl⟩

/-- C2: every Selector reachable from the empty Selector via the six
fragment-appending operations satisfies the data-model invariants — at most
one `element`, one `id` and one `pseudo-element` fragment, and the
non-combinator fragments in non-decreasing rank order — where the scan's
ranks are exactly the spec's: element 0, id 1, class 2, attribute 3,
pseudo-class 4, pseudo-element 5. -/
theorem reachable_invariant (s : Selector) (h : Reachable s) :
    (rankOf FragKind.element = 0 ∧ rankOf FragKind.id = 1 ∧
     rankOf FragKind.«class» = 2 ∧ rankOf FragKind.attribute = 3 ∧
     rankOf FragKind.pseudoClass = 4 ∧ rankOf FragKind.pseudoElement = 5) ∧
    Invariant s :=
  ⟨⟨rfl, rfl, rfl, rfl, rfl, rfl⟩, goodState_invariant (reachable_goodState h)⟩

theorem reachable_invariant_witness :
    Invariant ⟨some [{ type := FragKind.element, value := "a" }]⟩ := by
  have h : cssSelectorBuilder.element cssSelectorBuilder "a"
      = Except.ok ⟨some [{ type := FragKind.element, value := "a" }]⟩ := by rfl
  exact (reachable_invariant _ (Reachable.element Reachable.facade h)).2

/-- C3: on a Selector already containing a fragment of the same singleton
kind, `element`, `id` and `pseudoElement` fail with the duplicate error, for
every text argument; `class`, `attr` and `pseudoClass` perform no duplicate
check — the only error they can ever signal is the order error, and a
successful append of one of those kinds can always be followed by another
append of the same kind, so any number of occurrences is accepted. -/
theorem append_duplicate_policy (s : Selector) (v w : String) :
    (cssSelectorBuilder.hasDup s FragKind.element = true →
      cssSelectorBuilder.element s v = .error cssSelectorBuilder.TWICE_ERROR) ∧
    (cssSelectorBuilder.hasDup s FragKind.id = true →
      cssSelectorBuilder.id s v = .error cssSelectorBuilder.TWICE_ERROR) ∧
    (cssSelectorBuilder.hasDup s FragKind.pseudoElement = true →
      cssSelectorBuilder.pseudoElement s v = .error cssSelectorBuilder.TWICE_ERROR) ∧
    (∀ e, cssSelectorBuilder.«class» s v = .error e →
      e = cssSelectorBuilder.NOT_SO_ERROR) ∧
    (∀ e, cssSelectorBuilder.attr s v = .error e →
      e = cssSelectorBuilder.NOT_SO_ERROR) ∧
    (∀ e, cssSelectorBuilder.pseudoClass s v = .error e →
      e = cssSelectorBuilder.NOT_SO_ERROR) ∧
    (∀ s', cssSelectorBuilder.«class» s v = .ok s' →
      ∃ s'', cssSelectorBuilder.«class» s' w = .ok s'') ∧
    (∀ s', cssSelectorBuilder.attr s v = .ok s' →
      ∃ s'', cssSelectorBuilder.attr s' w = .ok s'') ∧
    (∀ s', cssSelectorBuilder.pseudoClass s v = .ok s' →
      ∃ s'', cssSelectorBuilder.pseudoClass s' w = .ok s'') := by
  refine ⟨fun hd => ?_, fun hd => ?_, fun hd => ?_,
    appendValidated_error_name s _ v, appendValidated_error_name s _ v,
    appendValidated_error_name s _ v, ?_, ?_, ?_⟩
  · simp [cssSelectorBuilder.element, hd]
  · simp [cssSelectorBuilder.id, hd]
  · simp [cssSelectorBuilder.pseudoElement, hd]
  all_goals
    intro s' hok
    obtain ⟨hsort, hs'⟩ := (appendValidated_ok_iff s _ v s').1 hok
    subst hs'
    refine ⟨_, (appendValidated_ok_iff _ _ w _).2 ⟨?_, rfl⟩⟩
    rw [isSortedB_append_last]
    constructor
    · simpa [frags] using hsort
    · intro a ha
      simp only [frags, Option.getD_some, List.getLast?_concat, Option.mem_def,
        Option.some_inj] at ha
      rw [← ha]

theorem append_duplicate_policy_witness :
    cssSelectorBuilder.element
        ⟨some [{ type := FragKind.element, value := "e" },
               { type := FragKind.id, value := "i" },
               { type := FragKind.pseudoElement, value := "p" }]⟩ "x"
      = .error cssSelectorBuilder.TWICE_ERROR ∧
    cssSelectorBuilder.id
        ⟨some [{ type := FragKind.element, value := "e" },
               { type := FragKind.id, value := "i" },
               { type := FragKind.pseudoElement, value := "p" }]⟩ "x"
      = .error cssSelectorBuilder.TWICE_ERROR ∧
    cssSelectorBuilder.pseudoElement
        ⟨some [{ type := FragKind.element, value := "e" },
               { type := FragKind.id, value := "i" },
               { type := FragKind.pseudoElement, value := "p" }]⟩ "x"
      = .error cssSelectorBuilder.TWICE_ERROR ∧
    ∃ s'', cssSelectorBuilder.«class» ⟨some [{ type := FragKind.«class», value := "a" }]⟩ "b"
      = .ok s'' := by
  have h1 := append_duplicate_policy
    ⟨some [{ type := FragKind.element, value := "e" },
           { type := FragKind.id, value := "i" },
           { type := FragKind.pseudoElement, value := "p" }]⟩ "x" "y"
  have h2 := append_duplicate_policy cssSelectorBuilder "a" "b"
  refine ⟨h1.1 (by rfl), h1.2.1 (by rfl), h1.2.2.1 (by rfl), ?_⟩
  exact h2.2.2.2.2.2.2.1 ⟨some [{ type := FragKind.«class», value := "a" }]⟩ (by rfl)

/-- C7: when a call to `element`, `id` or `pseudoElement` would both
duplicate its singleton kind and break the rank ordering, it fails with the
duplicate error, not the order error: the duplicate check runs on the
incoming fragment's kind before the array is extended and before the order
scan. -/
theorem duplicate_error_precedence (s : Selector) (v : String) (t : FragKind)
    (ht : t = FragKind.element ∨ t = FragKind.id ∨ t = FragKind.pseudoElement)
    (hdup : cssSelectorBuilder.hasDup s t = true)
    (_hord : cssSelectorBuilder.isSortedB (frags s ++ [{ type := t, value := v }]) = false) :
    appendOp t s v = .error cssSelectorBuilder.TWICE_ERROR := by
  rcases ht with h | h | h <;> rw [h] <;> rw [h] at hdup
  · simp [appendOp, cssSelectorBuilder.element, hdup]
  · simp [appendOp, cssSelectorBuilder.id, hdup]
  · simp [appendOp, cssSelectorBuilder.pseudoElement, hdup]

theorem duplicate_error_precedence_witness :
    appendOp FragKind.element
        ⟨some [{ type := FragKind.element, value := "a" },
               { type := FragKind.«class», value := "c" }]⟩ "b"
      = .error cssSelectorBuilder.TWICE_ERROR :=
  duplicate_error_precedence _ "b" FragKind.element (Or.inl rfl) (by rfl) (by rfl)

theorem appendOp_no_dup_eq {t : FragKind} (s : Selector) (v : String)
    (ht : t ≠ FragKind.combinator)
    (hnd : appendOp t s v ≠ .error cssSelectorBuilder.TWICE_ERROR) :
    appendOp t s v = cssSelectorBuilder.appendValidated s t v := by
  have guard : ∀ k : FragKind,
      (if cssSelectorBuilder.hasDup s k then Except.error cssSelectorBuilder.TWICE_ERROR
        else cssSelectorBuilder.appendValidated s k v)
        ≠ Except.error cssSelectorBuilder.TWICE_ERROR →
      (if cssSelectorBuilder.hasDup s k then Except.error cssSelectorBuilder.TWICE_ERROR
        else cssSelectorBuilder.appendValidated s k v)
        = cssSelectorBuilder.appendValidated s k v := by
    intro k hk
    by_cases hd : cssSelectorBuilder.hasDup s k
    · rw [if_pos hd] at hk
      exact absurd rfl hk
    · rw [if_neg hd]
  cases t
  · exact guard FragKind.element hnd
  · exact guard FragKind.id hnd
  · rfl
  · rfl
  · rfl
  · exact guard FragKind.pseudoElement hnd
  · exact absurd rfl ht

/-- C4 counterexample: on the Selector `combine of element "div" and element "p" with "+"` the appended kind `class` (rank 2) does not rank below the
immediately preceding fragment (element "p", rank 0) and `class` performs
no duplicate check, yet the append fails with the order error — because the
scan re-reads the whole array and trips over the element/combinator
pair — refuting the claimed "only if" direction. -/
theorem order_error_last_pair_counterexample :
    cssSelectorBuilder.«class»
        (cssSelectorBuilder.combine ⟨some [{ type := FragKind.element, value := "div" }]⟩
          "+" ⟨some [{ type := FragKind.element, value := "p" }]⟩) "c"
      = .error cssSelectorBuilder.NOT_SO_ERROR ∧
    (frags (cssSelectorBuilder.combine ⟨some [{ type := FragKind.element, value := "div" }]⟩
          "+" ⟨some [{ type := FragKind.element, value := "p" }]⟩)).getLast?
      = some { type := FragKind.element, value := "p" } ∧
    ¬ rankOf FragKind.«class» < rankOf FragKind.element :=
  ⟨rfl, rfl, by decide⟩

/-- C4 (amended): for a Selector whose existing fragment array itself passes
the order scan — as any Selector built by the appending operations alone
does — a fragment-appending operation fails with the order error iff the
rank the scan assigns of the appended kind is lower than that of the immediately
preceding fragment (given that no duplicate-kind failure fires first); on
such a failure no Selector is produced.  (Selectors produced by `combine`
can fail the scan already, and then every subsequent append fails regardless
of the last pair — see the counterexample.) -/
theorem order_error_iff_last_pair (s : Selector) (t : FragKind) (v : String)
    (ht : t ≠ FragKind.combinator)
    (hsorted : cssSelectorBuilder.isSortedB (frags s) = true)
    (hnd : appendOp t s v ≠ .error cssSelectorBuilder.TWICE_ERROR) :
    (appendOp t s v = .error cssSelectorBuilder.NOT_SO_ERROR ↔
      ∃ a, (frags s).getLast? = some a ∧ rankOf t < rankOf a.type) ∧
    ∀ s', appendOp t s v = .error cssSelectorBuilder.NOT_SO_ERROR →
      appendOp t s v ≠ .ok s' := by
  constructor
  · rw [appendOp_no_dup_eq s v ht hnd, appendValidated_error_iff]
    cases hl : (frags s).getLast? with
    | none =>
        constructor
        · intro hfalse
          rw [Bool.eq_false_iff] at hfalse
          exact absurd ((isSortedB_append_last _ _).2
            ⟨hsorted, by simp [hl]⟩) hfalse
        · rintro ⟨a, ha, _⟩
          exact Option.noConfusion ha
    | some a =>
        constructor
        · intro hfalse
          rw [Bool.eq_false_iff] at hfalse
          refine ⟨a, rfl, ?_⟩
          by_contra hle
          rw [Int.not_lt] at hle
          refine hfalse ((isSortedB_append_last _ _).2 ⟨hsorted, ?_⟩)
          intro x hx
          rw [hl, Option.mem_def, Option.some_inj] at hx
          subst hx
          simpa using hle
        · rintro ⟨a', ha', hlt⟩
          have haa : a = a' := by injection ha'
          subst haa
          rw [Bool.eq_false_iff]
          intro htrue
          have hle := ((isSortedB_append_last _ _).1 htrue).2 a (by rw [hl]; rfl)
          simp only [] at hle
          exact absurd hlt (Int.not_lt.2 (by simpa using hle))
  · intro s' he hok
    rw [he] at hok
    exact Except.noConfusion hok

theorem order_error_iff_last_pair_witness :
    appendOp FragKind.element ⟨some [{ type := FragKind.id, value := "a" }]⟩ "x"
      = .error cssSelectorBuilder.NOT_SO_ERROR :=
  (order_error_iff_last_pair ⟨some [{ type := FragKind.id, value := "a" }]⟩
      FragKind.element "x" (by decide) (by rfl)
      (by
        intro h
        have hh : cssSelectorBuilder.NOT_SO_ERROR = cssSelectorBuilder.TWICE_ERROR := by
          injection h
        exact absurd hh (by decide))).1.2
    ⟨{ type := FragKind.id, value := "a" }, rfl, by decide⟩

theorem rankOf_nonneg (k : FragKind) (hk : k ≠ FragKind.combinator) : 0 ≤ rankOf k := by
  cases k
  · decide
  · decide
  · decide
  · decide
  · decide
  · decide
  · exact absurd rfl hk

theorem isSortedB_false_of_boundary (l1 l2 : List Fragment) (a b x : Fragment)
    (ha : a.type ≠ FragKind.combinator) (hb : b.type = FragKind.combinator) :
    cssSelectorBuilder.isSortedB ((l1 ++ a :: b :: l2) ++ [x]) = false := by
  rw [Bool.eq_false_iff]
  intro htrue
  rw [isSortedB_eq_true_iff] at htrue
  have hshape : (l1 ++ a :: b :: l2) ++ [x] = l1 ++ a :: b :: (l2 ++ [x]) := by
    simp
  rw [hshape] at htrue
  have hab := (List.chain'_cons.1 (List.chain'_append.1 htrue).2.1).1
  rw [hb, rankOf_combinator] at hab
  exact absurd hab (by simpa using Int.lt_of_lt_of_le (by decide) (rankOf_nonneg a.type ha))

/-- C9: a Selector produced by `combine` whose fragment array contains a
non-combinator fragment immediately followed by a combinator fragment can
never be extended: every subsequent `class`, `attr` or `pseudoClass` call
fails with the out-of-order error, because the post-append scan re-reads the
whole array and ranks the combinator kind at -1 — below every non-combinator
kind. -/
theorem append_after_combine_boundary_fails
    (s1 s2 s : Selector) (c v : String) (l1 l2 : List Fragment) (a b : Fragment)
    (_hcomb : s = cssSelectorBuilder.combine s1 c s2)
    (hres : frags s = l1 ++ a :: b :: l2)
    (ha : a.type ≠ FragKind.combinator) (hb : b.type = FragKind.combinator) :
    (rankOf FragKind.combinator = -1 ∧
      ∀ k, k ≠ FragKind.combinator → rankOf FragKind.combinator < rankOf k) ∧
    cssSelectorBuilder.«class» s v = .error cssSelectorBuilder.NOT_SO_ERROR ∧
    cssSelectorBuilder.attr s v = .error cssSelectorBuilder.NOT_SO_ERROR ∧
    cssSelectorBuilder.pseudoClass s v = .error cssSelectorBuilder.NOT_SO_ERROR := by
  have hranks : ∀ k, k ≠ FragKind.combinator →
      rankOf FragKind.combinator < rankOf k := by
    intro k hk
    rw [rankOf_combinator]
    exact Int.lt_of_lt_of_le (by decide) (rankOf_nonneg k hk)
  have hfail : ∀ t : FragKind,
      cssSelectorBuilder.appendValidated s t v
        = .error cssSelectorBuilder.NOT_SO_ERROR := by
    intro t
    rw [appendValidated_error_iff, hres]
    exact isSortedB_false_of_boundary l1 l2 a b _ ha hb
  exact ⟨⟨rfl, hranks⟩, hfail FragKind.«class», hfail FragKind.attribute,
    hfail FragKind.pseudoClass⟩

theorem append_after_combine_boundary_fails_witness :
    cssSelectorBuilder.«class»
        (cssSelectorBuilder.combine ⟨some [{ type := FragKind.element, value := "a" }]⟩
          " " ⟨some [{ type := FragKind.element, value := "b" }]⟩) "x"
      = .error cssSelectorBuilder.NOT_SO_ERROR :=
  (append_after_combine_boundary_fails
      ⟨some [{ type := FragKind.element, value := "a" }]⟩
      ⟨some [{ type := FragKind.element, value := "b" }]⟩
      (cssSelectorBuilder.combine ⟨some [{ type := FragKind.element, value := "a" }]⟩
        " " ⟨some [{ type := FragKind.element, value := "b" }]⟩)
      " " "x" [] [{ type := FragKind.element, value := "b" }]
      { type := FragKind.element, value := "a" }
      { type := FragKind.combinator, value := " " }
      rfl rfl (by decide) rfl).2.1
